import Mathlib

/-!
Verification of the buffer renderer (`src/view/buffer_renderer.rs`).

The renderer is embedded shallowly: the `BufferRenderer` struct is split into
the per-frame immutable inputs (`Frame`, the fields set by `BufferRenderer::new`
that are never mutated) and the mutable per-pass state (`RendererState`, the
fields `buffer_position`, `screen_position` and `cursor_visible`).  Calls to the
terminal sink (`print_char`, `set_cursor`) are recorded as an event trace in the
state, in call order.  Every function below is a direct transcription of the
correspondingly named Rust method.
-/

/-- Document coordinate, modelled from the spec: `{line, offset}`, zero based
(the `scribe::buffer::Position` type is external to this repository). -/
structure Position where
  line : Nat
  offset : Nat
deriving DecidableEq, Repr

/-- Lexicographic order on positions, modelled from the spec: total order by
`(line, offset)`. -/
def Position.lex_le (a b : Position) : Bool :=
  a.line < b.line || (a.line == b.line && a.offset ≤ b.offset)

/-- Strict lexicographic order on positions. -/
def Position.lex_lt (a b : Position) : Bool :=
  a.line < b.line || (a.line == b.line && a.offset < b.offset)

/-- Half-open span of document positions, modelled from the spec
(the `scribe::buffer::Range` type is external to this repository). -/
structure Range where
  start : Position
  stop : Position
deriving DecidableEq, Repr

/-- Containment test, modelled from the spec: `includes(p)` is true iff
`start <= p < end`. -/
def Range.includes (r : Range) (p : Position) : Bool :=
  Position.lex_le r.start p && Position.lex_lt p r.stop

/-- Terminal colors (the `rustbox::Color` palette, external). `byte` stands for
the numbered palette variants; only `default` is distinguished by the renderer. -/
inductive Color
  | default
  | black
  | red
  | green
  | yellow
  | blue
  | magenta
  | cyan
  | white
  | byte (n : Nat)
deriving DecidableEq, Repr

/-- Character style (the `rustbox` style flags used by the renderer:
`RB_NORMAL`, `RB_BOLD`, `RB_REVERSE`). -/
inductive Style
  | normal
  | bold
  | reverse
deriving DecidableEq, Repr

/-- A syntax-tagged run of text, modelled from the spec
(`scribe::buffer::Lexeme`, external): starting document position, text
(as a character list) and optional scope name. -/
structure Lexeme where
  position : Position
  value : List Char
  scope : Option String
deriving DecidableEq, Repr

/-- A token of the document's token stream, modelled from the spec
(`scribe::buffer::Token`, external): a line boundary or a lexeme. -/
inductive Token
  | newline
  | lexeme (l : Lexeme)
deriving DecidableEq, Repr

/-- One call to the terminal sink, in the renderer's call order:
`Terminal::print_char(x, y, style, fg, bg, char)` or
`Terminal::set_cursor(Option<Position>)`. -/
inductive TerminalEvent
  | print_char (x y : Nat) (style : Style) (fg bg : Color) (c : Char)
  | set_cursor (p : Option Position)
deriving DecidableEq, Repr

/-- Recognizes a `print_char` sink call. -/
def is_print_char : TerminalEvent → Bool
  | TerminalEvent.print_char _ _ _ _ _ _ => true
  | _ => false

/-- Recognizes a `set_cursor(Some(_))` sink call. -/
def is_cursor_some : TerminalEvent → Bool
  | TerminalEvent.set_cursor (some _) => true
  | _ => false

/-- Recognizes a `set_cursor(None)` sink call. -/
def is_cursor_none : TerminalEvent → Bool
  | TerminalEvent.set_cursor none => true
  | _ => false

/-- Recognizes any `set_cursor` sink call. -/
def is_cursor_event : TerminalEvent → Bool
  | TerminalEvent.set_cursor _ => true
  | _ => false

/-- Recognizes a `print_char` call on screen row 0. -/
def is_row_zero_print : TerminalEvent → Bool
  | TerminalEvent.print_char _ 0 _ _ _ _ => true
  | _ => false

/-- `const LINE_LENGTH_GUIDE_OFFSET: usize = 80`. -/
def LINE_LENGTH_GUIDE_OFFSET : Nat := 80

/-- `const LINE_WRAPPING: bool = true`. -/
def LINE_WRAPPING : Bool := true

/-- `const TAB_WIDTH: usize = 4`. -/
def TAB_WIDTH : Nat := 4

/-- Decimal digit as a character, for line-number formatting. -/
def digit_char (n : Nat) : Char := Char.ofNat (48 + n)

/-- Fueled helper computing the decimal digits of a number, most significant
first, onto an accumulator. -/
def nat_digits_go : Nat → Nat → List Char → List Char
  | 0, _, acc => acc
  | fuel + 1, n, acc =>
    if n < 10 then digit_char n :: acc
    else nat_digits_go fuel (n / 10) (digit_char (n % 10) :: acc)

/-- Decimal representation of a number, mirroring Rust's
`n.to_string()` for `usize` (used for both its length and its characters). -/
def nat_digits (n : Nat) : List Char := nat_digits_go (n + 1) n []

/-- The per-frame immutable inputs of `BufferRenderer`: the constructor
arguments of `BufferRenderer::new` (the borrowed buffer contributing its
cursor, line count and token stream; the terminal contributing its
dimensions) plus the external `view::color::map` function, which is out of
scope for this repository and therefore kept abstract as a frame parameter. -/
structure Frame where
  alt_background_color : Color
  cursor : Position
  line_count : Nat
  tokens : Option (List Token)
  highlight : Option Range
  scroll_offset : Nat
  term_width : Nat
  term_height : Nat
  color_map : String → Color

/-- `line_number_width = buffer.line_count().to_string().len() + 1`. -/
def line_number_width (f : Frame) : Nat := (nat_digits f.line_count).length + 1

/-- `gutter_width = line_number_width + 2`. -/
def gutter_width (f : Frame) : Nat := line_number_width f + 2

/-- The mutable per-pass state of `BufferRenderer`, plus the trace of
terminal sink calls made so far (in call order). -/
structure RendererState where
  buffer_position : Position
  screen_position : Position
  cursor_visible : Bool
  events : List TerminalEvent
deriving Repr

/-- The freshly constructed state: both positions `{0, 0}`,
`cursor_visible: false`, no sink calls yet. -/
def initial_state : RendererState :=
  { buffer_position := { line := 0, offset := 0 }
    screen_position := { line := 0, offset := 0 }
    cursor_visible := false
    events := [] }

/-- `Terminal::print_char`: record one cell paint. -/
def terminal_print_char (s : RendererState) (x y : Nat) (st : Style)
    (fg bg : Color) (c : Char) : RendererState :=
  { s with events := s.events ++ [TerminalEvent.print_char x y st fg bg c] }

/-- `BufferRenderer::on_cursor_line`:
`buffer_position.line == buffer.cursor.line`. -/
def on_cursor_line (f : Frame) (s : RendererState) : Prop :=
  s.buffer_position.line = f.cursor.line

instance (f : Frame) (s : RendererState) : Decidable (on_cursor_line f s) :=
  inferInstanceAs (Decidable (_ = _))

/-- The `for offset in a..b { print_char(offset, row, ...) }` loops of the
renderer, expressed with a start column and an iteration count. -/
def print_spaces (row : Nat) (st : Style) (fg bg : Color) :
    Nat → Nat → RendererState → RendererState
  | _, 0, s => s
  | a, n + 1, s =>
    print_spaces row st fg bg (a + 1) n (terminal_print_char s a row st fg bg ' ')

/-- `BufferRenderer::print_line_highlight`: on the cursor's line, fill from the
current screen offset to the terminal's right edge with the alternate
background. -/
def print_line_highlight (f : Frame) (s : RendererState) : RendererState :=
  if on_cursor_line f s then
    print_spaces s.screen_position.line Style.normal Color.default
      f.alt_background_color s.screen_position.offset
      (f.term_width - s.screen_position.offset) s
  else s

/-- `BufferRenderer::length_guide_offset`:
`gutter_width + LINE_LENGTH_GUIDE_OFFSET`. -/
def length_guide_offset (f : Frame) : Nat :=
  gutter_width f + LINE_LENGTH_GUIDE_OFFSET

/-- `BufferRenderer::print_length_guide`: on non-cursor lines whose content has
not passed the guide column, paint one alternate-background cell there. -/
def print_length_guide (f : Frame) (s : RendererState) : RendererState :=
  if ¬on_cursor_line f s ∧ s.screen_position.offset ≤ length_guide_offset f then
    terminal_print_char s (length_guide_offset f) s.screen_position.line
      Style.normal Color.default f.alt_background_color ' '
  else s

/-- The character loop of `BufferRenderer::draw_line_number`, printing the
formatted number character by character from a running column offset. -/
def draw_line_number_go (f : Frame) (line : Nat) (cursor_line : Bool)
    (width : Nat) : List Char → Nat → RendererState → RendererState × Nat
  | [], offset, s => (s, offset)
  | ch :: rest, offset, s =>
    let background_color :=
      if width < offset ∧ cursor_line = false then Color.default
      else f.alt_background_color
    let weight := if cursor_line = true then Style.bold else Style.normal
    draw_line_number_go f line cursor_line width rest (offset + 1)
      (terminal_print_char s offset line weight Color.default background_color ch)

/-- Rust's `format!("{:>width$}  ", line_number, width = width)`: the number
right-aligned in `width` columns, followed by a two-space separator. -/
def format_line_number (line_number width : Nat) : List Char :=
  List.replicate (width - (nat_digits line_number).length) ' ' ++
    nat_digits line_number ++ [' ', ' ']

/-- `BufferRenderer::draw_line_number(line, line_number, cursor_line, width)`:
paints the formatted number and returns the resulting column offset. -/
def draw_line_number (f : Frame) (s : RendererState) (line line_number : Nat)
    (cursor_line : Bool) (width : Nat) : RendererState × Nat :=
  draw_line_number_go f line cursor_line width
    (format_line_number line_number width) 0 s

/-- The position stepping inside `BufferRenderer::advance_to_next_line`:
`buffer_position.line += 1; buffer_position.offset = 0;
screen_position.line += 1`. -/
def step_line_positions (s : RendererState) : RendererState :=
  { s with
    buffer_position := { line := s.buffer_position.line + 1, offset := 0 }
    screen_position :=
      { s.screen_position with line := s.screen_position.line + 1 } }

/-- The tail of `BufferRenderer::advance_to_next_line`: draw the leading line
number for the new line and make its width the screen offset. -/
def draw_next_line_number (f : Frame) (s : RendererState) : RendererState :=
  let p := draw_line_number f s s.screen_position.line
    (s.buffer_position.line + 1)
    (decide (s.buffer_position.line = f.cursor.line)) (line_number_width f)
  { p.1 with screen_position := { p.1.screen_position with offset := p.2 } }

/-- `BufferRenderer::advance_to_next_line`: finish the current line's
decorations, step both positions to the next line and draw its gutter number,
whose width becomes the new screen offset. -/
def advance_to_next_line (f : Frame) (s : RendererState) : RendererState :=
  draw_next_line_number f
    (step_line_positions (print_length_guide f (print_line_highlight f s)))

/-- `BufferRenderer::update_positions`: `Newline` advances to the next line;
`Lexeme` sets the buffer position to the lexeme's position and the screen
position to the same position with the gutter width added to its offset. -/
def update_positions (f : Frame) (s : RendererState) (t : Token) : RendererState :=
  match t with
  | Token.newline => advance_to_next_line f s
  | Token.lexeme l =>
    { s with
      buffer_position := l.position
      screen_position :=
        { line := l.position.line, offset := l.position.offset + gutter_width f } }

/-- `BufferRenderer::set_cursor`: when the buffer position has reached the
buffer's cursor, mark the cursor visible and place the terminal cursor at the
current screen position. -/
def set_cursor (f : Frame) (s : RendererState) : RendererState :=
  if f.cursor = s.buffer_position then
    { s with
      cursor_visible := true
      events := s.events ++ [TerminalEvent.set_cursor (some s.screen_position)] }
  else s

/-- `BufferRenderer::current_char_style`: reverse video with default foreground
inside the highlight range, otherwise normal with the token's color. -/
def current_char_style (f : Frame) (s : RendererState) (token_color : Color) :
    Style × Color :=
  match f.highlight with
  | some highlight_range =>
    if highlight_range.includes s.buffer_position then
      (Style.reverse, Color.default)
    else (Style.normal, token_color)
  | none => (Style.normal, token_color)

/-- `BufferRenderer::background_color`: alternate background on the cursor's
line, default elsewhere. -/
def background_color (f : Frame) (s : RendererState) : Color :=
  if on_cursor_line f s then f.alt_background_color else Color.default

/-- `fn next_tab_stop(offset) { (offset / TAB_WIDTH + 1) * TAB_WIDTH }`. -/
def next_tab_stop (offset : Nat) : Nat :=
  (offset / TAB_WIDTH + 1) * TAB_WIDTH

/-- The token color of a lexeme: `color::map(scope)` for a tagged lexeme,
default otherwise (the map itself is the frame's abstract `color_map`). -/
def token_color_of (f : Frame) (l : Lexeme) : Color :=
  match l.scope with
  | some scope => f.color_map scope
  | none => Color.default

/-- The painting part of `BufferRenderer::print_lexeme`'s character loop, with
the style/color pair already resolved: either soft-wrap, expand a tab, or
paint the character, advancing the positions. -/
def print_lexeme_char_core (f : Frame) (sc : Style × Color) (s : RendererState)
    (character : Char) : RendererState :=
  if LINE_WRAPPING = true ∧ s.screen_position.offset = f.term_width then
    let s :=
      { s with
        screen_position :=
          { line := s.screen_position.line + 1, offset := gutter_width f } }
    let s := terminal_print_char s s.screen_position.offset
      s.screen_position.line sc.1 sc.2 (background_color f s) character
    { s with
      screen_position :=
        { s.screen_position with offset := s.screen_position.offset + 1 }
      buffer_position :=
        { s.buffer_position with offset := s.buffer_position.offset + 1 } }
  else if character = '\t' then
    let buffer_tab_stop :=
      next_tab_stop (s.screen_position.offset - gutter_width f)
    let screen_tab_stop := buffer_tab_stop + gutter_width f
    let count := screen_tab_stop - s.screen_position.offset
    let s := print_spaces s.screen_position.line sc.1 sc.2
      f.alt_background_color s.screen_position.offset count s
    let s :=
      { s with
        screen_position :=
          { s.screen_position with offset := s.screen_position.offset + count } }
    { s with
      buffer_position :=
        { s.buffer_position with offset := s.buffer_position.offset + 1 } }
  else
    let s := terminal_print_char s s.screen_position.offset
      s.screen_position.line sc.1 sc.2 (background_color f s) character
    { s with
      screen_position :=
        { s.screen_position with offset := s.screen_position.offset + 1 }
      buffer_position :=
        { s.buffer_position with offset := s.buffer_position.offset + 1 } }

/-- The body of `BufferRenderer::print_lexeme`'s character loop for one
character: skip embedded newlines; check the cursor; resolve the style; paint
through the core; check the cursor again. -/
def print_lexeme_char (f : Frame) (token_color : Color) (s : RendererState)
    (character : Char) : RendererState :=
  if character = '\n' then s
  else
    set_cursor f
      (print_lexeme_char_core f
        (current_char_style f (set_cursor f s) token_color)
        (set_cursor f s) character)

/-- `BufferRenderer::print_lexeme`: resolve the token color once, then run the
character loop over the lexeme's text. -/
def print_lexeme (f : Frame) (s : RendererState) (l : Lexeme) : RendererState :=
  l.value.foldl (print_lexeme_char f (token_color_of f l)) s

/-- `BufferRenderer::before_visible_content`:
`buffer_position.line < scroll_offset`. -/
def before_visible_content (f : Frame) (s : RendererState) : Prop :=
  s.buffer_position.line < f.scroll_offset

instance (f : Frame) (s : RendererState) : Decidable (before_visible_content f s) :=
  inferInstanceAs (Decidable (_ < _))

/-- `BufferRenderer::after_visible_content`:
`screen_position.line >= terminal.height() - 1`. -/
def after_visible_content (f : Frame) (s : RendererState) : Prop :=
  f.term_height - 1 ≤ s.screen_position.line

instance (f : Frame) (s : RendererState) : Decidable (after_visible_content f s) :=
  inferInstanceAs (Decidable (_ ≤ _))

/-- The `'print` token loop of `BufferRenderer::render`: update positions,
check the cursor, skip tokens before the visible content, break once past it,
and print the lexemes in between. -/
def render_loop (f : Frame) : RendererState → List Token → RendererState
  | s, [] => s
  | s, t :: ts =>
    let s := update_positions f s t
    let s := set_cursor f s
    if before_visible_content f s then render_loop f s ts
    else if after_visible_content f s then s
    else
      match t with
      | Token.lexeme l => render_loop f (print_lexeme f s l) ts
      | Token.newline => render_loop f s ts

/-- The opening of `BufferRenderer::render`: draw the first line number (for
document line `scroll_offset`) and make its width the screen offset. -/
def render_start (f : Frame) : RendererState :=
  let p := draw_line_number f initial_state 0 (f.scroll_offset + 1)
    (decide (f.cursor.line = f.scroll_offset)) (line_number_width f)
  { p.1 with screen_position := { p.1.screen_position with offset := p.2 } }

/-- The cursor-clearing step of `BufferRenderer::render`: if the cursor was
never rendered along with the buffer, clear it with one `set_cursor(None)`. -/
def clear_hidden_cursor (s : RendererState) : RendererState :=
  if s.cursor_visible = true then s
  else { s with events := s.events ++ [TerminalEvent.set_cursor none] }

/-- The token-consuming phase of `BufferRenderer::render`: when the buffer has
been tokenized, run the token loop and make a final cursor check; otherwise
leave the state untouched. -/
def render_tokens (f : Frame) (s : RendererState) : RendererState :=
  match f.tokens with
  | some tokens => set_cursor f (render_loop f s tokens)
  | none => s

/-- `BufferRenderer::render`: the whole pass — initial gutter, the token loop
(when the buffer has been tokenized) followed by a final cursor check, a
`set_cursor(None)` if the cursor was never drawn, and the trailing line's
decorations. -/
def render (f : Frame) : RendererState :=
  print_length_guide f
    (print_line_highlight f
      (clear_hidden_cursor (render_tokens f (render_start f))))

/-- A state transformer that appends sink calls, never emits `set_cursor(None)`,
and whose `cursor_visible` flag becomes true exactly when it was already true
or a `set_cursor(Some(_))` was appended.  Every renderer operation is tame. -/
def Tame (T : RendererState → RendererState) : Prop :=
  ∀ s : RendererState, ∃ new : List TerminalEvent,
    (T s).events = s.events ++ new ∧
    new.filter is_cursor_none = [] ∧
    (T s).cursor_visible = (s.cursor_visible || new.any is_cursor_some)

/-- A state transformer that appends only `print_char` sink calls and leaves
the `cursor_visible` flag untouched. -/
def DrawOnly (T : RendererState → RendererState) : Prop :=
  ∀ s : RendererState, ∃ new : List TerminalEvent,
    (T s).events = s.events ++ new ∧
    new.filter is_cursor_event = [] ∧
    (T s).cursor_visible = s.cursor_visible

/-- Concrete frame for claim C1: a one-line document whose line starts with a
tab lexeme followed by a one-character lexeme. -/
def frameC1 : Frame :=
  { alt_background_color := Color.blue
    cursor := { line := 1, offset := 0 }
    line_count := 1
    tokens := some
      [Token.lexeme { position := { line := 0, offset := 0 }, value := ['\t'], scope := none },
       Token.lexeme { position := { line := 0, offset := 1 }, value := ['b'], scope := none }]
    highlight := none
    scroll_offset := 0
    term_width := 20
    term_height := 10
    color_map := fun _ => Color.default }

/-- The state of the C1 frame's pass right after its tab lexeme was printed. -/
def stateC1 : RendererState :=
  render_loop frameC1 (render_start frameC1)
    [Token.lexeme { position := { line := 0, offset := 0 }, value := ['\t'], scope := none }]

/-- A witness state on the C1 frame: start of content on the top line. -/
def stateC1w : RendererState :=
  { buffer_position := { line := 0, offset := 0 }
    screen_position := { line := 0, offset := 4 }
    cursor_visible := false
    events := [] }

/-- Concrete frame for claim C2: three lines scrolled down by two. -/
def frameC2 : Frame :=
  { alt_background_color := Color.blue
    cursor := { line := 2, offset := 0 }
    line_count := 3
    tokens := some
      [Token.newline, Token.newline,
       Token.lexeme { position := { line := 2, offset := 0 }, value := ['a'], scope := none }]
    highlight := none
    scroll_offset := 2
    term_width := 6
    term_height := 10
    color_map := fun _ => Color.default }

/-- Concrete frame for claim C3's counterexample: the cursor sits at the start
of the only lexeme, so the coincidence check matches twice. -/
def frameC3a : Frame :=
  { alt_background_color := Color.blue
    cursor := { line := 0, offset := 0 }
    line_count := 1
    tokens := some
      [Token.lexeme { position := { line := 0, offset := 0 }, value := ['a'], scope := none }]
    highlight := none
    scroll_offset := 0
    term_width := 6
    term_height := 6
    color_map := fun _ => Color.default }

/-- Concrete frame for claim C3's witness: the cursor position is never
reached by the pass. -/
def frameC3b : Frame :=
  { alt_background_color := Color.blue
    cursor := { line := 5, offset := 5 }
    line_count := 1
    tokens := some
      [Token.lexeme { position := { line := 0, offset := 0 }, value := ['a'], scope := none }]
    highlight := none
    scroll_offset := 0
    term_width := 6
    term_height := 6
    color_map := fun _ => Color.default }

/-- Concrete frame for claim C4: a two-row terminal, so the gutter number of
document line 1 lands on the reserved bottom row. -/
def frameC4 : Frame :=
  { alt_background_color := Color.blue
    cursor := { line := 0, offset := 0 }
    line_count := 2
    tokens := some [Token.newline]
    highlight := none
    scroll_offset := 0
    term_width := 6
    term_height := 2
    color_map := fun _ => Color.default }

/-- Concrete frame for claim C5's witness: width 6, so a screen offset of 6
triggers the soft wrap. -/
def frameC5 : Frame :=
  { alt_background_color := Color.blue
    cursor := { line := 1, offset := 0 }
    line_count := 1
    tokens := some []
    highlight := none
    scroll_offset := 0
    term_width := 6
    term_height := 10
    color_map := fun _ => Color.default }

/-- A witness state whose screen offset equals the C5 frame's width. -/
def stateC5 : RendererState :=
  { buffer_position := { line := 0, offset := 2 }
    screen_position := { line := 0, offset := 6 }
    cursor_visible := false
    events := [] }

/-- Concrete frame for claim C6's witness. -/
def frameC6 : Frame :=
  { alt_background_color := Color.blue
    cursor := { line := 1, offset := 0 }
    line_count := 1
    tokens := some []
    highlight := none
    scroll_offset := 0
    term_width := 20
    term_height := 10
    color_map := fun _ => Color.default }

/-- A witness state one content column into the top line of the C6 frame. -/
def stateC6 : RendererState :=
  { buffer_position := { line := 0, offset := 1 }
    screen_position := { line := 0, offset := 5 }
    cursor_visible := false
    events := [] }

/-- Concrete frame for claim C7 (only its colors matter to
`draw_line_number`). -/
def frameC7 : Frame :=
  { alt_background_color := Color.blue
    cursor := { line := 0, offset := 0 }
    line_count := 10
    tokens := none
    highlight := none
    scroll_offset := 0
    term_width := 6
    term_height := 6
    color_map := fun _ => Color.default }

/-- Concrete frame for claim C8: a buffer that has not been tokenized. -/
def frameC8 : Frame :=
  { alt_background_color := Color.blue
    cursor := { line := 1, offset := 0 }
    line_count := 1
    tokens := none
    highlight := none
    scroll_offset := 0
    term_width := 6
    term_height := 6
    color_map := fun _ => Color.default }

/-- Concrete frame for claim C9's witness: width 6, so a screen offset of 6
puts a tab character on the wrap path. -/
def frameC9 : Frame :=
  { alt_background_color := Color.blue
    cursor := { line := 1, offset := 0 }
    line_count := 1
    tokens := some []
    highlight := none
    scroll_offset := 0
    term_width := 6
    term_height := 10
    color_map := fun _ => Color.default }

/-- A witness state whose screen offset equals the C9 frame's width. -/
def stateC9 : RendererState :=
  { buffer_position := { line := 0, offset := 2 }
    screen_position := { line := 0, offset := 6 }
    cursor_visible := false
    events := [] }

/-- Concrete frame for claim C10's witness. -/
def frameC10 : Frame :=
  { alt_background_color := Color.blue
    cursor := { line := 1, offset := 0 }
    line_count := 1
    tokens := some []
    highlight := none
    scroll_offset := 0
    term_width := 20
    term_height := 10
    color_map := fun _ => Color.default }

/-- A witness state two content columns into the top line of the C10 frame. -/
def stateC10 : RendererState :=
  { buffer_position := { line := 0, offset := 2 }
    screen_position := { line := 0, offset := 6 }
    cursor_visible := false
    events := [] }

/-- The second lexeme of the C1 frame's token stream. -/
def lexemeC1b : Lexeme :=
  { position := { line := 0, offset := 1 }, value := ['b'], scope := none }

/-- A lexeme on a line above the C2 frame's scroll offset. -/
def lexemeC2w : Lexeme :=
  { position := { line := 0, offset := 0 }, value := ['x'], scope := none }

/-- A lexeme that the C4 frame's pass must never reach. -/
def lexemeC4w : Lexeme :=
  { position := { line := 1, offset := 0 }, value := ['z'], scope := none }

/-! ### Basic facts about the helpers -/

theorem nat_digits_go_length (fuel : Nat) :
    ∀ (n : Nat) (acc : List Char), 1 ≤ fuel →
      acc.length + 1 ≤ (nat_digits_go fuel n acc).length := by
  induction fuel with
  | zero => intro n acc h; omega
  | succ fuel ih =>
    intro n acc _
    rw [nat_digits_go]
    split
    · simp
    · rcases Nat.eq_zero_or_pos fuel with h0 | h1
      · subst h0; rw [nat_digits_go]; simp
      · have := ih (n / 10) (digit_char (n % 10) :: acc) h1
        simp only [List.length_cons] at this
        omega

theorem one_le_nat_digits_length (n : Nat) : 1 ≤ (nat_digits n).length := by
  have := nat_digits_go_length (n + 1) n [] (by omega)
  simpa using this

theorem gutter_width_pos (f : Frame) : 0 < gutter_width f := by
  unfold gutter_width line_number_width
  omega

theorem print_spaces_spec (row : Nat) (st : Style) (fg bg : Color) :
    ∀ (n a : Nat) (s : RendererState),
      print_spaces row st fg bg a n s =
        { s with events := (s.events ++ (List.range' a n).map
            (fun i => TerminalEvent.print_char i row st fg bg ' ')) } := by
  intro n
  induction n with
  | zero => intro a s; cases s; simp [print_spaces, List.range']
  | succ n ih =>
    intro a s
    rw [print_spaces, ih]
    cases s
    simp [terminal_print_char, List.range'_succ]

theorem draw_line_number_go_spec (f : Frame) (line : Nat) (cl : Bool) (width : Nat) :
    ∀ (chars : List Char) (offset : Nat) (s : RendererState),
      draw_line_number_go f line cl width chars offset s =
        ({ s with events := (s.events ++ (List.enumFrom offset chars).map
            (fun p => TerminalEvent.print_char p.1 line
              (if cl = true then Style.bold else Style.normal) Color.default
              (if width < p.1 ∧ cl = false then Color.default
               else f.alt_background_color) p.2)) },
         offset + chars.length) := by
  intro chars
  induction chars with
  | nil => intro offset s; cases s; simp [draw_line_number_go, List.enumFrom]
  | cons ch rest ih =>
    intro offset s
    rw [draw_line_number_go, ih]
    cases s
    simp only [terminal_print_char, List.enumFrom, List.map_cons, List.length_cons,
      List.append_assoc, List.singleton_append, Prod.mk.injEq]
    refine ⟨trivial, ?_⟩
    omega

theorem format_line_number_length (n width : Nat)
    (h : (nat_digits n).length ≤ width) :
    (format_line_number n width).length = width + 2 := by
  unfold format_line_number
  simp only [List.length_append, List.length_replicate, List.length_cons,
    List.length_nil]
  omega

theorem draw_line_number_spec (f : Frame) (s : RendererState) (line n : Nat)
    (cl : Bool) (width : Nat) :
    draw_line_number f s line n cl width =
      ({ s with events := (s.events ++
          (List.enumFrom 0 (format_line_number n width)).map
            (fun p => TerminalEvent.print_char p.1 line
              (if cl = true then Style.bold else Style.normal) Color.default
              (if width < p.1 ∧ cl = false then Color.default
               else f.alt_background_color) p.2)) },
       (format_line_number n width).length) := by
  unfold draw_line_number
  rw [draw_line_number_go_spec]
  simp

/-! ### Facts about the cursor check -/

theorem set_cursor_buffer_position (f : Frame) (s : RendererState) :
    (set_cursor f s).buffer_position = s.buffer_position := by
  unfold set_cursor; split <;> rfl

theorem set_cursor_screen_position (f : Frame) (s : RendererState) :
    (set_cursor f s).screen_position = s.screen_position := by
  unfold set_cursor; split <;> rfl

theorem set_cursor_filter_print (f : Frame) (s : RendererState) :
    (set_cursor f s).events.filter is_print_char = s.events.filter is_print_char := by
  unfold set_cursor
  split
  · simp [is_print_char]
  · rfl

theorem set_cursor_events_eq (f : Frame) (s : RendererState) :
    (set_cursor f s).events =
      if f.cursor = s.buffer_position then
        s.events ++ [TerminalEvent.set_cursor (some s.screen_position)]
      else s.events := by
  unfold set_cursor; split <;> rfl

theorem current_char_style_congr (f : Frame) (s s' : RendererState) (tc : Color)
    (h : s'.buffer_position = s.buffer_position) :
    current_char_style f s' tc = current_char_style f s tc := by
  unfold current_char_style; rw [h]

theorem background_color_congr (f : Frame) (s s' : RendererState)
    (h : s'.buffer_position.line = s.buffer_position.line) :
    background_color f s' = background_color f s := by
  simp only [background_color, on_cursor_line, h]

/-! ### The three branches of the character loop -/

theorem print_lexeme_char_wrap (f : Frame) (tc : Color) (s : RendererState)
    (c : Char) (hn : c ≠ '\n') (hw : s.screen_position.offset = f.term_width) :
    (print_lexeme_char f tc s c).screen_position =
        { line := s.screen_position.line + 1, offset := gutter_width f + 1 } ∧
    (print_lexeme_char f tc s c).buffer_position =
        { line := s.buffer_position.line, offset := s.buffer_position.offset + 1 } ∧
    (print_lexeme_char f tc s c).events.filter is_print_char =
      s.events.filter is_print_char ++
        [TerminalEvent.print_char (gutter_width f) (s.screen_position.line + 1)
          (current_char_style f s tc).1 (current_char_style f s tc).2
          (background_color f s) c] := by
  have h1 : LINE_WRAPPING = true ∧ (set_cursor f s).screen_position.offset = f.term_width :=
    ⟨rfl, by rw [set_cursor_screen_position]; exact hw⟩
  simp only [print_lexeme_char, print_lexeme_char_core, if_neg hn, if_pos h1, terminal_print_char]
  refine ⟨?_, ?_, ?_⟩
  · simp [set_cursor_screen_position]
  · simp [set_cursor_buffer_position]
  · simp [set_cursor_filter_print, List.filter_append, is_print_char,
      current_char_style, background_color, on_cursor_line,
      set_cursor_buffer_position, set_cursor_screen_position]

theorem print_lexeme_char_tab (f : Frame) (tc : Color) (s : RendererState)
    (hw : s.screen_position.offset ≠ f.term_width) :
    (print_lexeme_char f tc s '\t').screen_position =
        { line := s.screen_position.line,
          offset := s.screen_position.offset +
            (next_tab_stop (s.screen_position.offset - gutter_width f) + gutter_width f
              - s.screen_position.offset) } ∧
    (print_lexeme_char f tc s '\t').buffer_position =
        { line := s.buffer_position.line, offset := s.buffer_position.offset + 1 } ∧
    (print_lexeme_char f tc s '\t').events.filter is_print_char =
      s.events.filter is_print_char ++
        (List.range' s.screen_position.offset
          (next_tab_stop (s.screen_position.offset - gutter_width f) + gutter_width f
            - s.screen_position.offset)).map
          (fun i => TerminalEvent.print_char i s.screen_position.line
            (current_char_style f s tc).1 (current_char_style f s tc).2
            f.alt_background_color ' ') := by
  have h1 : ¬(LINE_WRAPPING = true ∧ (set_cursor f s).screen_position.offset = f.term_width) := by
    rw [set_cursor_screen_position]
    exact fun h => hw h.2
  simp only [print_lexeme_char, print_lexeme_char_core, if_neg (by decide : ¬('\t' = '\n')), if_neg h1,
    if_pos (rfl : '\t' = '\t'), print_spaces_spec]
  refine ⟨?_, ?_, ?_⟩
  · simp [set_cursor_screen_position]
  · simp [set_cursor_buffer_position]
  · simp [set_cursor_filter_print, List.filter_append, is_print_char,
      current_char_style, set_cursor_buffer_position, set_cursor_screen_position,
      List.filter_map]
    congr 1
    refine List.filter_eq_self.mpr ?_
    intro a _
    rfl

theorem print_lexeme_char_plain (f : Frame) (tc : Color) (s : RendererState)
    (c : Char) (hn : c ≠ '\n') (ht : c ≠ '\t')
    (hw : s.screen_position.offset ≠ f.term_width) :
    (print_lexeme_char f tc s c).screen_position =
        { line := s.screen_position.line, offset := s.screen_position.offset + 1 } ∧
    (print_lexeme_char f tc s c).buffer_position =
        { line := s.buffer_position.line, offset := s.buffer_position.offset + 1 } ∧
    (print_lexeme_char f tc s c).events.filter is_print_char =
      s.events.filter is_print_char ++
        [TerminalEvent.print_char s.screen_position.offset s.screen_position.line
          (current_char_style f s tc).1 (current_char_style f s tc).2
          (background_color f s) c] := by
  have h1 : ¬(LINE_WRAPPING = true ∧ (set_cursor f s).screen_position.offset = f.term_width) := by
    rw [set_cursor_screen_position]
    exact fun h => hw h.2
  simp only [print_lexeme_char, print_lexeme_char_core, if_neg hn, if_neg h1, if_neg ht, terminal_print_char]
  refine ⟨?_, ?_, ?_⟩
  · simp [set_cursor_screen_position]
  · simp [set_cursor_buffer_position]
  · simp [set_cursor_filter_print, List.filter_append, is_print_char,
      current_char_style, background_color, on_cursor_line,
      set_cursor_buffer_position, set_cursor_screen_position]

/-! ### Cursor discipline of the sink-call trace -/

theorem cursor_event_split (l : List TerminalEvent)
    (h : l.filter is_cursor_event = []) :
    l.filter is_cursor_none = [] ∧ l.any is_cursor_some = false := by
  induction l with
  | nil => simp
  | cons e l ih =>
    cases e with
    | print_char x y st fg bg c =>
      simp only [List.filter_cons, List.any_cons, is_cursor_event, is_cursor_none,
        is_cursor_some, Bool.false_eq_true, if_false, Bool.false_or] at h ⊢
      exact ih h
    | set_cursor p =>
      simp [is_cursor_event] at h

theorem drawonly_tame {T : RendererState → RendererState} (h : DrawOnly T) :
    Tame T := by
  intro s
  obtain ⟨new, he, hf, hc⟩ := h s
  obtain ⟨h1, h2⟩ := cursor_event_split new hf
  exact ⟨new, he, h1, by rw [hc, h2, Bool.or_false]⟩

theorem tame_comp {T U : RendererState → RendererState}
    (hT : Tame T) (hU : Tame U) : Tame (fun s => U (T s)) := by
  intro s
  obtain ⟨n1, e1, f1, c1⟩ := hT s
  obtain ⟨n2, e2, f2, c2⟩ := hU (T s)
  refine ⟨n1 ++ n2, ?_, ?_, ?_⟩
  · rw [e2, e1, List.append_assoc]
  · rw [List.filter_append, f1, f2]; rfl
  · rw [c2, c1, List.any_append, Bool.or_assoc]

theorem drawonly_comp {T U : RendererState → RendererState}
    (hT : DrawOnly T) (hU : DrawOnly U) : DrawOnly (fun s => U (T s)) := by
  intro s
  obtain ⟨n1, e1, f1, c1⟩ := hT s
  obtain ⟨n2, e2, f2, c2⟩ := hU (T s)
  refine ⟨n1 ++ n2, ?_, ?_, ?_⟩
  · rw [e2, e1, List.append_assoc]
  · rw [List.filter_append, f1, f2]; rfl
  · rw [c2, c1]

theorem drawonly_print_line_highlight (f : Frame) :
    DrawOnly (print_line_highlight f) := by
  intro s
  unfold print_line_highlight
  split
  · rw [print_spaces_spec]
    refine ⟨_, rfl, ?_, rfl⟩
    refine List.filter_eq_nil_iff.mpr ?_
    intro e he
    obtain ⟨i, _, rfl⟩ := List.mem_map.mp he
    simp [is_cursor_event]
  · exact ⟨[], by simp, rfl, rfl⟩

theorem drawonly_print_length_guide (f : Frame) :
    DrawOnly (print_length_guide f) := by
  intro s
  unfold print_length_guide
  split
  · exact ⟨[TerminalEvent.print_char (length_guide_offset f) s.screen_position.line
      Style.normal Color.default f.alt_background_color ' '], rfl,
      by simp [is_cursor_event], rfl⟩
  · exact ⟨[], by simp, rfl, rfl⟩

theorem drawonly_step_line_positions : DrawOnly step_line_positions :=
  fun _ => ⟨[], by simp [step_line_positions], rfl, rfl⟩

theorem drawonly_draw_next_line_number (f : Frame) :
    DrawOnly (draw_next_line_number f) := by
  intro s
  unfold draw_next_line_number
  rw [draw_line_number_spec]
  refine ⟨_, rfl, ?_, rfl⟩
  refine List.filter_eq_nil_iff.mpr ?_
  intro e he
  obtain ⟨p, _, rfl⟩ := List.mem_map.mp he
  simp [is_cursor_event]

theorem drawonly_advance_to_next_line (f : Frame) :
    DrawOnly (advance_to_next_line f) := by
  have h := drawonly_comp
    (drawonly_comp
      (drawonly_comp (drawonly_print_line_highlight f) (drawonly_print_length_guide f))
      drawonly_step_line_positions)
    (drawonly_draw_next_line_number f)
  intro s
  exact h s

theorem drawonly_update_positions (f : Frame) (t : Token) :
    DrawOnly (fun s => update_positions f s t) := by
  cases t with
  | newline => exact fun s => drawonly_advance_to_next_line f s
  | lexeme l => exact fun s => ⟨[], by simp [update_positions], rfl, rfl⟩

theorem tame_set_cursor (f : Frame) : Tame (set_cursor f) := by
  intro s
  unfold set_cursor
  split
  · exact ⟨[TerminalEvent.set_cursor (some s.screen_position)], rfl,
      by simp [is_cursor_none], by simp [is_cursor_some]⟩
  · exact ⟨[], by simp, rfl, by simp⟩

theorem drawonly_print_lexeme_char_core (f : Frame) (sc : Style × Color)
    (c : Char) (s : RendererState) :
    ∃ new, (print_lexeme_char_core f sc s c).events = s.events ++ new ∧
      new.filter is_cursor_event = [] ∧
      (print_lexeme_char_core f sc s c).cursor_visible = s.cursor_visible := by
  unfold print_lexeme_char_core
  split
  · exact ⟨_, rfl, by simp [is_cursor_event], rfl⟩
  · split
    · simp only [print_spaces_spec]
      refine ⟨_, rfl, ?_, trivial⟩
      refine List.filter_eq_nil_iff.mpr ?_
      intro e he
      obtain ⟨i, _, rfl⟩ := List.mem_map.mp he
      simp [is_cursor_event]
    · exact ⟨_, rfl, by simp [is_cursor_event], rfl⟩

theorem tame_print_lexeme_char (f : Frame) (tc : Color) (c : Char) :
    Tame (fun s => print_lexeme_char f tc s c) := by
  by_cases hn : c = '\n'
  · subst hn
    exact fun s => ⟨[], by simp [print_lexeme_char], rfl, by simp [print_lexeme_char]⟩
  · intro s
    have hD : DrawOnly
        (fun x => print_lexeme_char_core f (current_char_style f x tc) x c) :=
      fun x => drawonly_print_lexeme_char_core f (current_char_style f x tc) c x
    have h := tame_comp
      (tame_comp (tame_set_cursor f) (drawonly_tame hD)) (tame_set_cursor f) s
    obtain ⟨new, he, hf, hc⟩ := h
    refine ⟨new, ?_, hf, ?_⟩
    · simp only [print_lexeme_char, if_neg hn]; exact he
    · simp only [print_lexeme_char, if_neg hn]; exact hc

theorem tame_foldl (step : RendererState → Char → RendererState)
    (h : ∀ c, Tame (fun s => step s c)) :
    ∀ chars : List Char, Tame (fun s => List.foldl step s chars) := by
  intro chars
  induction chars with
  | nil => exact fun s => ⟨[], by simp, rfl, by simp⟩
  | cons c cs ih => exact fun s => tame_comp (h c) ih s

theorem tame_print_lexeme (f : Frame) (l : Lexeme) :
    Tame (fun s => print_lexeme f s l) :=
  tame_foldl (print_lexeme_char f (token_color_of f l))
    (fun c => tame_print_lexeme_char f (token_color_of f l) c) l.value

theorem tame_chain {s1 s2 s3 : RendererState} {n1 n2 : List TerminalEvent}
    (e1 : s2.events = s1.events ++ n1) (f1 : n1.filter is_cursor_none = [])
    (c1 : s2.cursor_visible = (s1.cursor_visible || n1.any is_cursor_some))
    (e2 : s3.events = s2.events ++ n2) (f2 : n2.filter is_cursor_none = [])
    (c2 : s3.cursor_visible = (s2.cursor_visible || n2.any is_cursor_some)) :
    s3.events = s1.events ++ (n1 ++ n2) ∧
    (n1 ++ n2).filter is_cursor_none = [] ∧
    s3.cursor_visible = (s1.cursor_visible || (n1 ++ n2).any is_cursor_some) := by
  refine ⟨?_, ?_, ?_⟩
  · rw [e2, e1, List.append_assoc]
  · rw [List.filter_append, f1, f2]; rfl
  · rw [c2, c1, List.any_append, Bool.or_assoc]

theorem tame_update_positions (f : Frame) (t : Token) :
    Tame (fun s => update_positions f s t) := by
  cases t with
  | newline => exact fun s => drawonly_tame (drawonly_advance_to_next_line f) s
  | lexeme l => exact fun s => ⟨[], by simp [update_positions], rfl,
      by simp [update_positions]⟩

theorem render_loop_cons (f : Frame) (s : RendererState) (t : Token)
    (ts : List Token) :
    render_loop f s (t :: ts) =
      (if before_visible_content f (set_cursor f (update_positions f s t)) then
        render_loop f (set_cursor f (update_positions f s t)) ts
      else if after_visible_content f (set_cursor f (update_positions f s t)) then
        set_cursor f (update_positions f s t)
      else
        match t with
        | Token.lexeme l =>
          render_loop f (print_lexeme f (set_cursor f (update_positions f s t)) l) ts
        | Token.newline =>
          render_loop f (set_cursor f (update_positions f s t)) ts) := rfl

theorem tame_render_loop (f : Frame) :
    ∀ ts : List Token, Tame (fun s => render_loop f s ts) := by
  intro ts
  induction ts with
  | nil => exact fun s => ⟨[], by simp [render_loop], rfl, by simp [render_loop]⟩
  | cons t ts ih =>
    intro s
    obtain ⟨n1, e1, f1, c1⟩ :=
      tame_comp (tame_update_positions f t) (tame_set_cursor f) s
    show ∃ new, (render_loop f s (t :: ts)).events = s.events ++ new ∧
      new.filter is_cursor_none = [] ∧
      (render_loop f s (t :: ts)).cursor_visible =
        (s.cursor_visible || new.any is_cursor_some)
    rw [render_loop_cons]
    by_cases hb : before_visible_content f (set_cursor f (update_positions f s t))
    · rw [if_pos hb]
      obtain ⟨n2, e2, f2, c2⟩ := ih (set_cursor f (update_positions f s t))
      exact ⟨n1 ++ n2, tame_chain e1 f1 c1 e2 f2 c2⟩
    · rw [if_neg hb]
      by_cases ha : after_visible_content f (set_cursor f (update_positions f s t))
      · rw [if_pos ha]
        exact ⟨n1, e1, f1, c1⟩
      · rw [if_neg ha]
        cases t with
        | newline =>
          obtain ⟨n2, e2, f2, c2⟩ :=
            ih (set_cursor f (update_positions f s Token.newline))
          exact ⟨n1 ++ n2, tame_chain e1 f1 c1 e2 f2 c2⟩
        | lexeme l =>
          obtain ⟨n2, e2, f2, c2⟩ :=
            tame_print_lexeme f l (set_cursor f (update_positions f s (Token.lexeme l)))
          obtain ⟨n3, e3, f3, c3⟩ :=
            ih (print_lexeme f (set_cursor f (update_positions f s (Token.lexeme l))) l)
          obtain ⟨ea, fa, ca⟩ := tame_chain e1 f1 c1 e2 f2 c2
          exact ⟨(n1 ++ n2) ++ n3, tame_chain ea fa ca e3 f3 c3⟩

theorem tame_render_tokens (f : Frame) : Tame (render_tokens f) := by
  intro s
  unfold render_tokens
  cases f.tokens with
  | none => exact ⟨[], by simp, rfl, by simp⟩
  | some ts => exact tame_comp (tame_render_loop f ts) (tame_set_cursor f) s

theorem render_start_state (f : Frame) :
    (render_start f).buffer_position = { line := 0, offset := 0 } ∧
    (render_start f).screen_position =
      { line := 0,
        offset := (format_line_number (f.scroll_offset + 1) (line_number_width f)).length } ∧
    (render_start f).cursor_visible = false ∧
    (render_start f).events =
      (List.enumFrom 0 (format_line_number (f.scroll_offset + 1) (line_number_width f))).map
        (fun p => TerminalEvent.print_char p.1 0
          (if decide (f.cursor.line = f.scroll_offset) = true then Style.bold
           else Style.normal)
          Color.default
          (if line_number_width f < p.1 ∧ decide (f.cursor.line = f.scroll_offset) = false
           then Color.default else f.alt_background_color) p.2) := by
  simp only [render_start, draw_line_number_spec]
  exact ⟨rfl, rfl, rfl, by simp [initial_state]⟩

theorem cursor_event_join (l : List TerminalEvent)
    (h1 : l.filter is_cursor_none = []) (h2 : l.any is_cursor_some = false) :
    l.filter is_cursor_event = [] := by
  induction l with
  | nil => rfl
  | cons e l ih =>
    cases e with
    | print_char x y st fg bg c =>
      simp only [List.filter_cons, List.any_cons, is_cursor_event, is_cursor_none,
        is_cursor_some, Bool.false_eq_true, if_false, Bool.false_or] at h1 h2 ⊢
      exact ih h1 h2
    | set_cursor p =>
      cases p with
      | none => simp [is_cursor_none] at h1
      | some q => simp [is_cursor_some] at h2

theorem clear_hidden_cursor_events (s : RendererState) :
    (clear_hidden_cursor s).events =
      if s.cursor_visible = true then s.events
      else s.events ++ [TerminalEvent.set_cursor none] := by
  unfold clear_hidden_cursor; split <;> rfl

/-! ### Shapes of the decoration steps -/

theorem clear_hidden_cursor_positions (s : RendererState) :
    (clear_hidden_cursor s).screen_position = s.screen_position ∧
    (clear_hidden_cursor s).buffer_position = s.buffer_position := by
  unfold clear_hidden_cursor; split <;> exact ⟨rfl, rfl⟩

theorem print_line_highlight_positions (f : Frame) (s : RendererState) :
    (print_line_highlight f s).screen_position = s.screen_position ∧
    (print_line_highlight f s).buffer_position = s.buffer_position := by
  by_cases h : on_cursor_line f s
  · unfold print_line_highlight
    rw [if_pos h, print_spaces_spec]
    exact ⟨rfl, rfl⟩
  · unfold print_line_highlight
    rw [if_neg h]
    exact ⟨rfl, rfl⟩

theorem print_line_highlight_events (f : Frame) (s : RendererState) :
    (print_line_highlight f s).events =
      s.events ++
        (if on_cursor_line f s then
          (List.range' s.screen_position.offset
            (f.term_width - s.screen_position.offset)).map
            (fun i => TerminalEvent.print_char i s.screen_position.line
              Style.normal Color.default f.alt_background_color ' ')
        else []) := by
  by_cases h : on_cursor_line f s
  · unfold print_line_highlight
    rw [if_pos h, if_pos h, print_spaces_spec]
  · unfold print_line_highlight
    rw [if_neg h, if_neg h, List.append_nil]

theorem print_length_guide_events (f : Frame) (s : RendererState) :
    (print_length_guide f s).events =
      s.events ++
        (if ¬on_cursor_line f s ∧ s.screen_position.offset ≤ length_guide_offset f then
          [TerminalEvent.print_char (length_guide_offset f) s.screen_position.line
            Style.normal Color.default f.alt_background_color ' ']
        else []) := by
  by_cases h : ¬on_cursor_line f s ∧ s.screen_position.offset ≤ length_guide_offset f
  · unfold print_length_guide
    rw [if_pos h, if_pos h]
    rfl
  · unfold print_length_guide
    rw [if_neg h, if_neg h, List.append_nil]

theorem render_start_filter_cursor (f : Frame) :
    (render_start f).events.filter is_cursor_event = [] := by
  rw [(render_start_state f).2.2.2]
  refine List.filter_eq_nil_iff.mpr ?_
  intro e he
  obtain ⟨p, _, rfl⟩ := List.mem_map.mp he
  simp [is_cursor_event]

theorem render_start_all_row_zero (f : Frame) :
    (render_start f).events.all
      (fun e => is_row_zero_print e || is_cursor_none e) = true := by
  rw [(render_start_state f).2.2.2]
  refine List.all_eq_true.mpr ?_
  intro e he
  obtain ⟨p, _, rfl⟩ := List.mem_map.mp he
  simp [is_row_zero_print]

/-! ### Arithmetic of the tab stops -/

theorem next_tab_stop_gt (c : Nat) : c < next_tab_stop c := by
  simp only [next_tab_stop, TAB_WIDTH]
  omega

theorem next_tab_stop_le (c : Nat) : next_tab_stop c ≤ c + TAB_WIDTH := by
  simp only [next_tab_stop, TAB_WIDTH]
  omega

/-! ### The claims -/

/-- Claim C5: whenever line wrapping is enabled and the screen offset equals
the viewport width exactly before painting a character, that character is
painted at screen line `screen_position.line + 1` and column `gutter_width`
(a positive column, and the only cell painted — no gutter glyph is redrawn),
and the wrap does not change `document_position.line` while the document
offset advances by one. -/
theorem claim_C5 (f : Frame) (tc : Color) (s : RendererState) (c : Char)
    (hn : c ≠ '\n') (hw : s.screen_position.offset = f.term_width) :
    LINE_WRAPPING = true ∧
    (print_lexeme_char f tc s c).events.filter is_print_char =
      s.events.filter is_print_char ++
        [TerminalEvent.print_char (gutter_width f) (s.screen_position.line + 1)
          (current_char_style f s tc).1 (current_char_style f s tc).2
          (background_color f s) c] ∧
    0 < gutter_width f ∧
    (print_lexeme_char f tc s c).screen_position =
      { line := s.screen_position.line + 1, offset := gutter_width f + 1 } ∧
    (print_lexeme_char f tc s c).buffer_position.line = s.buffer_position.line := by
  obtain ⟨h1, h2, h3⟩ := print_lexeme_char_wrap f tc s c hn hw
  exact ⟨rfl, h3, gutter_width_pos f, h1, by rw [h2]⟩

/-- Witness for claim C5 on a concrete frame and state. -/
theorem claim_C5_witness :
    ('x' ≠ '\n' ∧ stateC5.screen_position.offset = frameC5.term_width) ∧
    (LINE_WRAPPING = true ∧
     (print_lexeme_char frameC5 Color.default stateC5 'x').events.filter is_print_char =
       stateC5.events.filter is_print_char ++
         [TerminalEvent.print_char (gutter_width frameC5)
           (stateC5.screen_position.line + 1)
           (current_char_style frameC5 stateC5 Color.default).1
           (current_char_style frameC5 stateC5 Color.default).2
           (background_color frameC5 stateC5) 'x'] ∧
     0 < gutter_width frameC5 ∧
     (print_lexeme_char frameC5 Color.default stateC5 'x').screen_position =
       { line := stateC5.screen_position.line + 1, offset := gutter_width frameC5 + 1 } ∧
     (print_lexeme_char frameC5 Color.default stateC5 'x').buffer_position.line =
       stateC5.buffer_position.line) :=
  ⟨⟨by decide, by decide⟩,
   claim_C5 frameC5 Color.default stateC5 'x' (by decide) (by decide)⟩

/-- Claim C9: when wrapping is triggered while the next character is a tab,
the wrap branch takes precedence over tab expansion — the tab is painted as a
single literal cell at `(screen_position.line + 1, gutter_width)`, both
offsets advance by exactly one, and no expansion to the next tab stop
occurs. -/
theorem claim_C9 (f : Frame) (tc : Color) (s : RendererState)
    (hw : s.screen_position.offset = f.term_width) :
    (print_lexeme_char f tc s '\t').events.filter is_print_char =
      s.events.filter is_print_char ++
        [TerminalEvent.print_char (gutter_width f) (s.screen_position.line + 1)
          (current_char_style f s tc).1 (current_char_style f s tc).2
          (background_color f s) '\t'] ∧
    (print_lexeme_char f tc s '\t').screen_position =
      { line := s.screen_position.line + 1, offset := gutter_width f + 1 } ∧
    (print_lexeme_char f tc s '\t').buffer_position =
      { line := s.buffer_position.line, offset := s.buffer_position.offset + 1 } := by
  obtain ⟨h1, h2, h3⟩ := print_lexeme_char_wrap f tc s '\t' (by decide) hw
  exact ⟨h3, h1, h2⟩

/-- Witness for claim C9 on a concrete frame and state. -/
theorem claim_C9_witness :
    (stateC9.screen_position.offset = frameC9.term_width) ∧
    ((print_lexeme_char frameC9 Color.default stateC9 '\t').events.filter is_print_char =
       stateC9.events.filter is_print_char ++
         [TerminalEvent.print_char (gutter_width frameC9)
           (stateC9.screen_position.line + 1)
           (current_char_style frameC9 stateC9 Color.default).1
           (current_char_style frameC9 stateC9 Color.default).2
           (background_color frameC9 stateC9) '\t'] ∧
     (print_lexeme_char frameC9 Color.default stateC9 '\t').screen_position =
       { line := stateC9.screen_position.line + 1, offset := gutter_width frameC9 + 1 } ∧
     (print_lexeme_char frameC9 Color.default stateC9 '\t').buffer_position =
       { line := stateC9.buffer_position.line,
         offset := stateC9.buffer_position.offset + 1 }) :=
  ⟨by decide, claim_C9 frameC9 Color.default stateC9 (by decide)⟩

/-- Claim C6: a rendered tab advances the document offset by exactly one
regardless of the branch taken; the next tab stop is
`(content_col / TAB_WIDTH + 1) * TAB_WIDTH`; and on the expansion path
(no wrap pending, offset at or past the gutter) space cells with the
alternate background are painted from `screen_position.offset` up to
`gutter_width + stop`, leaving the screen offset at `gutter_width + stop`. -/
theorem claim_C6 (f : Frame) (tc : Color) (s : RendererState) :
    ((print_lexeme_char f tc s '\t').buffer_position.offset =
      s.buffer_position.offset + 1) ∧
    (next_tab_stop (s.screen_position.offset - gutter_width f) =
      ((s.screen_position.offset - gutter_width f) / TAB_WIDTH + 1) * TAB_WIDTH) ∧
    (gutter_width f ≤ s.screen_position.offset →
      s.screen_position.offset ≠ f.term_width →
      (print_lexeme_char f tc s '\t').events.filter is_print_char =
        s.events.filter is_print_char ++
          (List.range' s.screen_position.offset
            (next_tab_stop (s.screen_position.offset - gutter_width f) + gutter_width f
              - s.screen_position.offset)).map
            (fun i => TerminalEvent.print_char i s.screen_position.line
              (current_char_style f s tc).1 (current_char_style f s tc).2
              f.alt_background_color ' ') ∧
      (print_lexeme_char f tc s '\t').screen_position.offset =
        gutter_width f + next_tab_stop (s.screen_position.offset - gutter_width f)) := by
  refine ⟨?_, rfl, ?_⟩
  · by_cases hw : s.screen_position.offset = f.term_width
    · rw [(print_lexeme_char_wrap f tc s '\t' (by decide) hw).2.1]
    · rw [(print_lexeme_char_tab f tc s hw).2.1]
  · intro hg hw
    obtain ⟨h1, _, h3⟩ := print_lexeme_char_tab f tc s hw
    refine ⟨h3, ?_⟩
    have hgt := next_tab_stop_gt (s.screen_position.offset - gutter_width f)
    rw [h1]
    show s.screen_position.offset +
      (next_tab_stop (s.screen_position.offset - gutter_width f) + gutter_width f
        - s.screen_position.offset) =
      gutter_width f + next_tab_stop (s.screen_position.offset - gutter_width f)
    omega

/-- Witness for claim C6 on a concrete frame and state. -/
theorem claim_C6_witness :
    (gutter_width frameC6 ≤ stateC6.screen_position.offset ∧
     stateC6.screen_position.offset ≠ frameC6.term_width) ∧
    ((print_lexeme_char frameC6 Color.default stateC6 '\t').buffer_position.offset =
      stateC6.buffer_position.offset + 1) ∧
    ((print_lexeme_char frameC6 Color.default stateC6 '\t').events.filter is_print_char =
       stateC6.events.filter is_print_char ++
         (List.range' stateC6.screen_position.offset
           (next_tab_stop (stateC6.screen_position.offset - gutter_width frameC6)
             + gutter_width frameC6 - stateC6.screen_position.offset)).map
           (fun i => TerminalEvent.print_char i stateC6.screen_position.line
             (current_char_style frameC6 stateC6 Color.default).1
             (current_char_style frameC6 stateC6 Color.default).2
             frameC6.alt_background_color ' ') ∧
     (print_lexeme_char frameC6 Color.default stateC6 '\t').screen_position.offset =
       gutter_width frameC6 +
         next_tab_stop (stateC6.screen_position.offset - gutter_width frameC6)) :=
  ⟨⟨by decide, by decide⟩,
   (claim_C6 frameC6 Color.default stateC6).1,
   (claim_C6 frameC6 Color.default stateC6).2.2 (by decide) (by decide)⟩

/-- Claim C10: every tab stop is a multiple of the tab width with
`c < next_tab_stop c ≤ c + TAB_WIDTH`; consequently each tab expansion paints
between one and `TAB_WIDTH` cells and strictly increases the screen offset. -/
theorem claim_C10 :
    (∀ c : Nat, TAB_WIDTH ∣ next_tab_stop c ∧ c < next_tab_stop c ∧
      next_tab_stop c ≤ c + TAB_WIDTH) ∧
    (∀ (f : Frame) (tc : Color) (s : RendererState),
      gutter_width f ≤ s.screen_position.offset →
      s.screen_position.offset ≠ f.term_width →
      ((print_lexeme_char f tc s '\t').events.filter is_print_char).length =
        (s.events.filter is_print_char).length +
          (next_tab_stop (s.screen_position.offset - gutter_width f) + gutter_width f
            - s.screen_position.offset) ∧
      1 ≤ next_tab_stop (s.screen_position.offset - gutter_width f) + gutter_width f
            - s.screen_position.offset ∧
      next_tab_stop (s.screen_position.offset - gutter_width f) + gutter_width f
            - s.screen_position.offset ≤ TAB_WIDTH ∧
      s.screen_position.offset < (print_lexeme_char f tc s '\t').screen_position.offset) := by
  constructor
  · intro c
    refine ⟨⟨c / TAB_WIDTH + 1, ?_⟩, next_tab_stop_gt c, next_tab_stop_le c⟩
    unfold next_tab_stop
    ring
  · intro f tc s hg hw
    obtain ⟨h1, _, h3⟩ := print_lexeme_char_tab f tc s hw
    have hgt := next_tab_stop_gt (s.screen_position.offset - gutter_width f)
    have hle := next_tab_stop_le (s.screen_position.offset - gutter_width f)
    have hT : TAB_WIDTH = 4 := rfl
    refine ⟨?_, by omega, by omega, ?_⟩
    · rw [h3]
      simp [List.length_append, List.length_map, List.length_range']
    · rw [h1]
      show s.screen_position.offset <
        s.screen_position.offset +
          (next_tab_stop (s.screen_position.offset - gutter_width f) + gutter_width f
            - s.screen_position.offset)
      omega

/-- Witness for claim C10 on a concrete frame and state. -/
theorem claim_C10_witness :
    (gutter_width frameC10 ≤ stateC10.screen_position.offset ∧
     stateC10.screen_position.offset ≠ frameC10.term_width) ∧
    (TAB_WIDTH ∣ next_tab_stop 6 ∧ 6 < next_tab_stop 6 ∧
      next_tab_stop 6 ≤ 6 + TAB_WIDTH) ∧
    stateC10.screen_position.offset <
      (print_lexeme_char frameC10 Color.default stateC10 '\t').screen_position.offset :=
  ⟨⟨by decide, by decide⟩, claim_C10.1 6,
   (claim_C10.2 frameC10 Color.default stateC10 (by decide) (by decide)).2.2.2⟩

/-- Counterexample to claim C1: after the C1 frame's tab lexeme is printed the
screen offset (8) exceeds the document offset (1) plus the gutter width (4) by
three extra tab columns, but consuming the next `Lexeme` resets the screen
offset to document offset plus gutter width only (5), discarding the extras —
the claimed invariant `screen = document + gutter + extras` fails there. -/
theorem claim_C1_counterexample :
    stateC1.screen_position.offset = 8 ∧
    stateC1.buffer_position.offset = 1 ∧
    gutter_width frameC1 = 4 ∧
    (update_positions frameC1 stateC1 (Token.lexeme lexemeC1b)).buffer_position.offset = 1 ∧
    (update_positions frameC1 stateC1 (Token.lexeme lexemeC1b)).screen_position.offset = 5 ∧
    ¬((update_positions frameC1 stateC1 (Token.lexeme lexemeC1b)).screen_position.offset =
        (update_positions frameC1 stateC1 (Token.lexeme lexemeC1b)).buffer_position.offset +
          gutter_width frameC1 +
          (stateC1.screen_position.offset - gutter_width frameC1 -
            stateC1.buffer_position.offset)) := by
  decide

/-- Claim C1 as amended: consuming a `Lexeme` sets both positions to the
lexeme's document position with the screen offset translated by the fixed
gutter width alone (any extra columns accumulated from earlier tab expansion
or soft wraps on the same line are discarded); the invariant
`screen_offset = document_offset + gutter_width` is then preserved by printing
ordinary characters that trigger no wrap. -/
theorem claim_C1_amended (f : Frame) (tc : Color) (s : RendererState)
    (l : Lexeme) (c : Char) :
    ((update_positions f s (Token.lexeme l)).buffer_position = l.position ∧
     (update_positions f s (Token.lexeme l)).screen_position =
       { line := l.position.line, offset := l.position.offset + gutter_width f }) ∧
    (c ≠ '\n' → c ≠ '\t' → s.screen_position.offset ≠ f.term_width →
      s.screen_position.offset = s.buffer_position.offset + gutter_width f →
      (print_lexeme_char f tc s c).screen_position.offset =
        (print_lexeme_char f tc s c).buffer_position.offset + gutter_width f) := by
  refine ⟨⟨rfl, rfl⟩, ?_⟩
  intro hn ht hw hinv
  obtain ⟨h1, h2, _⟩ := print_lexeme_char_plain f tc s c hn ht hw
  rw [h1, h2]
  show s.screen_position.offset + 1 = s.buffer_position.offset + 1 + gutter_width f
  omega

/-- Witness for the amended claim C1 on a concrete frame and state. -/
theorem claim_C1_witness :
    ('b' ≠ '\n' ∧ 'b' ≠ '\t' ∧
      stateC1w.screen_position.offset ≠ frameC1.term_width ∧
      stateC1w.screen_position.offset =
        stateC1w.buffer_position.offset + gutter_width frameC1) ∧
    (print_lexeme_char frameC1 Color.default stateC1w 'b').screen_position.offset =
      (print_lexeme_char frameC1 Color.default stateC1w 'b').buffer_position.offset +
        gutter_width frameC1 :=
  ⟨⟨by decide, by decide, by decide, by decide⟩,
   (claim_C1_amended frameC1 Color.default stateC1w lexemeC1b 'b').2
     (by decide) (by decide) (by decide) (by decide)⟩

/-- Counterexample to claim C2: on the C2 frame (scrolled down by two) the
very first `Newline` token is processed while the document line (0) is still
below the scroll offset, yet its position update draws the length guide for
document line 0 — a draw call targeting a document line below
`scroll_offset`, both in the isolated step and in the full `render` trace. -/
theorem claim_C2_counterexample :
    (render_start frameC2).buffer_position.line < frameC2.scroll_offset ∧
    TerminalEvent.print_char 84 0 Style.normal Color.default Color.blue ' '
      ∈ (update_positions frameC2 (render_start frameC2) Token.newline).events ∧
    TerminalEvent.print_char 84 0 Style.normal Color.default Color.blue ' '
      ∉ (render_start frameC2).events ∧
    TerminalEvent.print_char 84 0 Style.normal Color.default Color.blue ' '
      ∈ (render frameC2).events := by
  decide

/-- Claim C2 as amended: while `document_position.line < scroll_offset`,
`Lexeme` tokens are skipped without any drawing — their position update emits
no events, the cursor check emits no `print_char`, and the loop moves on to
the remaining tokens (`Newline` tokens, by contrast, still draw the completed
line's decorations and the next gutter number during the skip phase). -/
theorem claim_C2_amended (f : Frame) (s : RendererState) (l : Lexeme)
    (ts : List Token) (h : l.position.line < f.scroll_offset) :
    render_loop f s (Token.lexeme l :: ts) =
      render_loop f (set_cursor f (update_positions f s (Token.lexeme l))) ts ∧
    (update_positions f s (Token.lexeme l)).events = s.events ∧
    (set_cursor f (update_positions f s (Token.lexeme l))).events.filter is_print_char =
      s.events.filter is_print_char := by
  have hb : before_visible_content f (set_cursor f (update_positions f s (Token.lexeme l))) := by
    show (set_cursor f (update_positions f s (Token.lexeme l))).buffer_position.line <
      f.scroll_offset
    rw [set_cursor_buffer_position]
    exact h
  refine ⟨?_, rfl, ?_⟩
  · rw [render_loop_cons, if_pos hb]
  · rw [set_cursor_filter_print]
    rfl

/-- Witness for the amended claim C2 on a concrete frame. -/
theorem claim_C2_witness :
    (lexemeC2w.position.line < frameC2.scroll_offset) ∧
    (render_loop frameC2 (render_start frameC2) (Token.lexeme lexemeC2w :: []) =
      render_loop frameC2
        (set_cursor frameC2
          (update_positions frameC2 (render_start frameC2) (Token.lexeme lexemeC2w))) [] ∧
    (update_positions frameC2 (render_start frameC2) (Token.lexeme lexemeC2w)).events =
      (render_start frameC2).events ∧
    (set_cursor frameC2
        (update_positions frameC2 (render_start frameC2)
          (Token.lexeme lexemeC2w))).events.filter is_print_char =
      (render_start frameC2).events.filter is_print_char) :=
  ⟨by decide,
   claim_C2_amended frameC2 (render_start frameC2) lexemeC2w [] (by decide)⟩

/-- Counterexample to claim C4: on the C4 frame (terminal height 2, so the
bottom reserved row is row 1) processing the single `Newline` token draws the
next line's gutter number on row 1 before the height check fires — a draw
call targeting a screen row `>= viewport.height - 1`. -/
theorem claim_C4_counterexample :
    frameC4.term_height - 1 = 1 ∧
    TerminalEvent.print_char 0 1 Style.normal Color.default Color.blue ' '
      ∈ (render frameC4).events := by
  decide

/-- Claim C4 as amended: the pass terminates at the first token after whose
position update `screen_position.line >= viewport.height - 1` (and that is
not still above the scroll offset): the remaining tokens, whatever they are,
are not processed — though the stopping token's own update may already have
drawn on the reserved row. -/
theorem claim_C4_amended (f : Frame) (s : RendererState) (t : Token)
    (ts : List Token)
    (h1 : ¬ before_visible_content f (set_cursor f (update_positions f s t)))
    (h2 : after_visible_content f (set_cursor f (update_positions f s t))) :
    render_loop f s (t :: ts) = set_cursor f (update_positions f s t) := by
  rw [render_loop_cons, if_neg h1, if_pos h2]

/-- Witness for the amended claim C4 on a concrete frame. -/
theorem claim_C4_witness :
    (¬ before_visible_content frameC4
        (set_cursor frameC4 (update_positions frameC4 (render_start frameC4) Token.newline)) ∧
     after_visible_content frameC4
        (set_cursor frameC4 (update_positions frameC4 (render_start frameC4) Token.newline))) ∧
    render_loop frameC4 (render_start frameC4) (Token.newline :: [Token.lexeme lexemeC4w]) =
      set_cursor frameC4 (update_positions frameC4 (render_start frameC4) Token.newline) :=
  ⟨⟨by decide, by decide⟩,
   claim_C4_amended frameC4 (render_start frameC4) Token.newline [Token.lexeme lexemeC4w]
     (by decide) (by decide)⟩

/-- Counterexample to claim C7: drawing line number 5 right-aligned in width 2
on a non-cursor line paints the first separator column (index 2 = width) with
the alternate background, not the default background the claim requires for
the separator on non-cursor lines. -/
theorem claim_C7_counterexample :
    (draw_line_number frameC7 initial_state 0 5 false 2).1.events[2]? =
      some (TerminalEvent.print_char 2 0 Style.normal Color.default
        frameC7.alt_background_color ' ') ∧
    frameC7.alt_background_color ≠ Color.default := by
  decide

/-- Claim C7 as amended: `draw_line_number` paints the number right-aligned in
`width` columns followed by a two-column separator, with default foreground,
bold weight exactly on the cursor line, and alternate background for every
column of index at most `width` — including the first separator column even
on non-cursor lines — while only the second separator column gets the default
background on non-cursor lines; it leaves the renderer state's positions and
flag untouched and returns `width + 2` (the gutter width) whenever the
number's digits fit in `width`. -/
theorem claim_C7_amended (f : Frame) (s : RendererState) (line n : Nat)
    (cl : Bool) (width : Nat) :
    (draw_line_number f s line n cl width).1.events =
      s.events ++ (List.enumFrom 0 (format_line_number n width)).map
        (fun p => TerminalEvent.print_char p.1 line
          (if cl = true then Style.bold else Style.normal) Color.default
          (if p.1 ≤ width ∨ cl = true then f.alt_background_color else Color.default)
          p.2) ∧
    (draw_line_number f s line n cl width).1.buffer_position = s.buffer_position ∧
    (draw_line_number f s line n cl width).1.screen_position = s.screen_position ∧
    (draw_line_number f s line n cl width).1.cursor_visible = s.cursor_visible ∧
    ((nat_digits n).length ≤ width →
      (draw_line_number f s line n cl width).2 = width + 2) := by
  have hbg : ∀ (b : Bool) (i w : Nat),
      (if w < i ∧ b = false then Color.default else f.alt_background_color) =
      (if i ≤ w ∨ b = true then f.alt_background_color else Color.default) := by
    intro b i w
    by_cases h1 : i ≤ w
    · rw [if_neg (fun hc => absurd hc.1 (by omega)), if_pos (Or.inl h1)]
    · cases b with
      | true => rw [if_neg (fun hc => absurd hc.2 (by decide)), if_pos (Or.inr rfl)]
      | false =>
        rw [if_pos ⟨by omega, rfl⟩,
          if_neg (fun hc => hc.elim (fun hle => absurd hle h1)
            (fun ht => absurd ht (by decide)))]
  rw [draw_line_number_spec]
  refine ⟨?_, rfl, rfl, rfl, ?_⟩
  · simp only [hbg]
  · intro h
    exact format_line_number_length n width h

/-- Witness for the amended claim C7 on concrete arguments. -/
theorem claim_C7_witness :
    ((nat_digits 5).length ≤ 2) ∧
    (draw_line_number frameC7 initial_state 0 5 false 2).2 = 2 + 2 :=
  ⟨by decide,
   (claim_C7_amended frameC7 initial_state 0 5 false 2).2.2.2.2 (by decide)⟩

/-- Counterexample to claim C3: on the C3 frame the cursor sits at the start
of the first lexeme, so the coincidence check fires both after the token's
position update and again before painting its first character — the frame's
trace contains two `set_cursor` calls, not exactly one. -/
theorem claim_C3_counterexample :
    ((render frameC3a).events.filter is_cursor_event).length = 2 ∧
    ((render frameC3a).events.filter is_cursor_event).length ≠ 1 := by
  decide

/-- Claim C3 as amended: if no `set_cursor(Some(_))` is emitted during a
render, the frame's whole trace contains exactly one `set_cursor` call and it
is `set_cursor(None)`; if any `set_cursor(Some(_))` is emitted (the check can
match several times per frame), no `set_cursor(None)` is ever emitted; and
every cursor check emits `Some(p)` exactly when the buffer position has
reached the cursor, with `p` the current mapped screen position. -/
theorem claim_C3_amended (f : Frame) :
    ((render f).events.any is_cursor_some = false →
      (render f).events.filter is_cursor_event = [TerminalEvent.set_cursor none]) ∧
    ((render f).events.any is_cursor_some = true →
      (render f).events.filter is_cursor_none = []) ∧
    (∀ s : RendererState, (set_cursor f s).events =
      if f.cursor = s.buffer_position then
        s.events ++ [TerminalEvent.set_cursor (some s.screen_position)]
      else s.events) := by
  obtain ⟨n1, e1, f1, c1⟩ := tame_render_tokens f (render_start f)
  have hstart := render_start_state f
  obtain ⟨hsn, hss⟩ := cursor_event_split _ (render_start_filter_cursor f)
  have h1none : (render_tokens f (render_start f)).events.filter is_cursor_none = [] := by
    rw [e1, List.filter_append, hsn, f1]
    rfl
  have h1some : (render_tokens f (render_start f)).events.any is_cursor_some
      = (render_tokens f (render_start f)).cursor_visible := by
    rw [e1, List.any_append, hss, c1, hstart.2.2.1]
  obtain ⟨nd, ed, fd, cd⟩ :=
    drawonly_comp (drawonly_print_line_highlight f) (drawonly_print_length_guide f)
      (clear_hidden_cursor (render_tokens f (render_start f)))
  obtain ⟨fdn, fds⟩ := cursor_event_split _ fd
  have hrev : (render f).events =
      (clear_hidden_cursor (render_tokens f (render_start f))).events ++ nd := ed
  have hany : (render f).events.any is_cursor_some
      = (render_tokens f (render_start f)).cursor_visible := by
    rw [hrev, List.any_append, fds, Bool.or_false, clear_hidden_cursor_events]
    by_cases hv : (render_tokens f (render_start f)).cursor_visible = true
    · rw [if_pos hv, h1some]
    · rw [if_neg hv, List.any_append, h1some]
      simp [is_cursor_some]
  refine ⟨?_, ?_, fun s => set_cursor_events_eq f s⟩
  · intro h
    have hv : (render_tokens f (render_start f)).cursor_visible = false := by
      rw [← hany]
      exact h
    have hS_evt : (render_tokens f (render_start f)).events.filter is_cursor_event = [] :=
      cursor_event_join _ h1none (by rw [h1some, hv])
    rw [hrev, clear_hidden_cursor_events, hv, if_neg (by simp),
      List.filter_append, List.filter_append, hS_evt, fd]
    simp [is_cursor_event]
  · intro h
    have hv : (render_tokens f (render_start f)).cursor_visible = true := by
      rw [← hany]
      exact h
    rw [hrev, clear_hidden_cursor_events, hv, if_pos rfl, List.filter_append, h1none, fdn]
    rfl

/-- Witness for the amended claim C3: a frame whose cursor is never reached
gets exactly one cursor call, a `set_cursor(None)`. -/
theorem claim_C3_witness :
    (render frameC3b).events.any is_cursor_some = false ∧
    (render frameC3b).events.filter is_cursor_event = [TerminalEvent.set_cursor none] :=
  ⟨by decide, (claim_C3_amended frameC3b).1 (by decide)⟩

/-- Claim C8: when the buffer has not been tokenized, `render` still succeeds
and degrades gracefully — every sink call is either a `print_char` on screen
row 0 (the initial gutter, plus the top line's background fill or length
guide) or the single cursor-clearing `set_cursor(None)`, and the trace is not
empty. -/
theorem claim_C8 (f : Frame) (h : f.tokens = none) :
    (render f).events.all (fun e => is_row_zero_print e || is_cursor_none e) = true ∧
    (render f).events.filter is_cursor_event = [TerminalEvent.set_cursor none] ∧
    (render f).events ≠ [] := by
  have hs := render_start_state f
  have hrt : render_tokens f (render_start f) = render_start f := by
    unfold render_tokens
    rw [h]
  have hrw : render f =
      print_length_guide f (print_line_highlight f
        (clear_hidden_cursor (render_start f))) := by
    unfold render
    rw [hrt]
  have hclev : (clear_hidden_cursor (render_start f)).events
      = (render_start f).events ++ [TerminalEvent.set_cursor none] := by
    rw [clear_hidden_cursor_events, hs.2.2.1]
    simp
  have hclpos := clear_hidden_cursor_positions (render_start f)
  have hhlpos := print_line_highlight_positions f (clear_hidden_cursor (render_start f))
  have hline1 : (clear_hidden_cursor (render_start f)).screen_position.line = 0 := by
    rw [hclpos.1, hs.2.1]
  have hline2 : (print_line_highlight f
      (clear_hidden_cursor (render_start f))).screen_position.line = 0 := by
    rw [hhlpos.1, hclpos.1, hs.2.1]
  have hall := render_start_all_row_zero f
  have hfilter := render_start_filter_cursor f
  have h2 : (render f).events.filter is_cursor_event = [TerminalEvent.set_cursor none] := by
    rw [hrw, print_length_guide_events, print_line_highlight_events, hclev]
    rw [List.filter_append, List.filter_append, List.filter_append, hfilter]
    have hg1 : (List.filter is_cursor_event [TerminalEvent.set_cursor none]) =
        [TerminalEvent.set_cursor none] := by simp [is_cursor_event]
    rw [hg1]
    have hg2 : ∀ b : Prop, ∀ i : Decidable b, (List.filter is_cursor_event
        (if b then (List.range'
            (clear_hidden_cursor (render_start f)).screen_position.offset
            (f.term_width -
              (clear_hidden_cursor (render_start f)).screen_position.offset)).map
          (fun i => TerminalEvent.print_char i
            (clear_hidden_cursor (render_start f)).screen_position.line
            Style.normal Color.default f.alt_background_color ' ')
        else [])) = [] := by
      intro b i
      split
      · refine List.filter_eq_nil_iff.mpr ?_
        intro e he
        obtain ⟨p, _, rfl⟩ := List.mem_map.mp he
        simp [is_cursor_event]
      · rfl
    rw [hg2]
    have hg3 : (List.filter is_cursor_event
        (if ¬on_cursor_line f (print_line_highlight f
              (clear_hidden_cursor (render_start f))) ∧
            (print_line_highlight f
              (clear_hidden_cursor (render_start f))).screen_position.offset ≤
              length_guide_offset f then
          [TerminalEvent.print_char (length_guide_offset f)
            (print_line_highlight f
              (clear_hidden_cursor (render_start f))).screen_position.line
            Style.normal Color.default f.alt_background_color ' ']
        else [])) = [] := by
      split
      · simp [is_cursor_event]
      · rfl
    rw [hg3]
    simp
  refine ⟨?_, h2, ?_⟩
  · rw [hrw, print_length_guide_events, print_line_highlight_events, hclev, hline1, hline2]
    rw [List.all_append, List.all_append, List.all_append, hall]
    have ha1 : List.all [TerminalEvent.set_cursor none]
        (fun e => is_row_zero_print e || is_cursor_none e) = true := by
      simp [is_cursor_none]
    rw [ha1]
    have ha2 : List.all
        (if on_cursor_line f (clear_hidden_cursor (render_start f)) then
          (List.range'
            (clear_hidden_cursor (render_start f)).screen_position.offset
            (f.term_width -
              (clear_hidden_cursor (render_start f)).screen_position.offset)).map
            (fun i => TerminalEvent.print_char i 0
              Style.normal Color.default f.alt_background_color ' ')
        else [])
        (fun e => is_row_zero_print e || is_cursor_none e) = true := by
      split
      · refine List.all_eq_true.mpr ?_
        intro e he
        obtain ⟨p, _, rfl⟩ := List.mem_map.mp he
        simp [is_row_zero_print]
      · rfl
    rw [ha2]
    have ha3 : List.all
        (if ¬on_cursor_line f (print_line_highlight f
              (clear_hidden_cursor (render_start f))) ∧
            (print_line_highlight f
              (clear_hidden_cursor (render_start f))).screen_position.offset ≤
              length_guide_offset f then
          [TerminalEvent.print_char (length_guide_offset f) 0
            Style.normal Color.default f.alt_background_color ' ']
        else [])
        (fun e => is_row_zero_print e || is_cursor_none e) = true := by
      split
      · simp [is_row_zero_print]
      · rfl
    rw [ha3]
    rfl
  · intro hnil
    rw [hnil] at h2
    simp at h2

/-- Witness for claim C8 on a concrete untokenized frame. -/
theorem claim_C8_witness :
    frameC8.tokens = none ∧
    (render frameC8).events.all
      (fun e => is_row_zero_print e || is_cursor_none e) = true ∧
    (render frameC8).events.filter is_cursor_event = [TerminalEvent.set_cursor none] :=
  ⟨rfl, (claim_C8 frameC8 rfl).1, (claim_C8 frameC8 rfl).2.1⟩
